import Mathlib

/-!
# Verification of `wand.drawing` (Artoria2e5/wand)

Shallow embedding of `src/wand/drawing.py`, a ctypes binding over the
ImageMagick DrawingWand API, together with the parts of the native contract
and of the `Resource` base class that the module relies on.

Conventions of the embedding:

* Python `numbers.Real` values are embedded as `ℚ` (exact rationals; the
  module performs no arithmetic beyond addition and comparison, so the
  float/rational distinction is immaterial to the verified properties).
* Python exceptions are values of `PyErr`; a method that can raise returns
  `Except PyErr _`.  Returning `.error e` models raising `e` before any
  statement after the raise executes, so an error result means no later
  native call was issued and no state was mutated.
* The native drawing wand is the record `DrawingWand`; the native
  per-attribute entry points store and load its fields, following the
  contract stated in the specification (§6: per-attribute get/set entry
  points whose enum ordering agrees with the token tables).
* Mutating wrapper methods also return the list of native calls they
  issued, so "exactly one native call" and "never reaches the native
  layer" are statements about that list.
-/

/-- Python exception classes that `wand.drawing` can raise, each carrying
its message. -/
inductive PyErr where
  | typeError (msg : String)
  | valueError (msg : String)
  | indexError (msg : String)
  | wandError (msg : String)
  | wandLibraryVersionError (msg : String)
  deriving Repr, DecidableEq

/-- `true` exactly on `TypeError`. -/
def PyErr.isTypeError : PyErr → Bool
  | .typeError _ => true
  | _ => false

/-- `true` exactly on `ValueError`. -/
def PyErr.isValueError : PyErr → Bool
  | .valueError _ => true
  | _ => false

/-- A Python value as far as the module's argument checks observe it:
either an `int` (as returned by the native enum queries) or a `str`
(as supplied to the enumerated-property setters). -/
inductive PyVal where
  | int (n : Nat)
  | str (s : String)
  deriving Repr, DecidableEq

/-- Python `==` between the embedded values: comparing an `int` with a
`str` yields `False` (both `__eq__` methods return `NotImplemented`, and
the fallback identity test fails). -/
def pyEq : PyVal → PyVal → Bool
  | .int a, .int b => a == b
  | .str a, .str b => a == b
  | _, _ => false

/-- Python `v in ts` for a tuple `ts` of `str` tokens: membership tests
`pyEq v element` left to right. -/
def pyIn (v : PyVal) (ts : List String) : Bool :=
  ts.any (fun t => pyEq v (.str t))

/-- Python tuple indexing `ts[i]`: raises `IndexError` out of range. -/
def tupleIndex (ts : List String) (i : Nat) : Except PyErr String :=
  match ts.get? i with
  | some t => .ok t
  | none => .error (.indexError "tuple index out of range")

/- The fixed ordered token tables of `wand/drawing.py`. -/

/-- The list of clip path units (`CLIP_PATH_UNITS` in the source). -/
def CLIP_PATH_UNITS : List String :=
  ["undefined_path_units", "user_space", "user_space_on_use",
   "object_bounding_box"]

/-- The list of text align types (`TEXT_ALIGN_TYPES`). -/
def TEXT_ALIGN_TYPES : List String :=
  ["undefined", "left", "center", "right"]

/-- The list of text decoration types (`TEXT_DECORATION_TYPES`). -/
def TEXT_DECORATION_TYPES : List String :=
  ["undefined", "no", "underline", "overline", "line_through"]

/-- The list of text direction types (`TEXT_DIRECTION_TYPES`). -/
def TEXT_DIRECTION_TYPES : List String :=
  ["undefined", "right_to_left", "left_to_right"]

/-- The list of text gravity types (`GRAVITY_TYPES`). -/
def GRAVITY_TYPES : List String :=
  ["forget", "north_west", "north", "north_east", "west",
   "center", "east", "south_west", "south", "south_east",
   "static"]

/-- The list of fill-rule types (`FILL_RULE_TYPES`). -/
def FILL_RULE_TYPES : List String :=
  ["undefined", "evenodd", "nonzero"]

/-- The list of LineCap types (`LINE_CAP_TYPES`). -/
def LINE_CAP_TYPES : List String :=
  ["undefined", "butt", "round", "square"]

/-- The list of LineJoin types (`LINE_JOIN_TYPES`). -/
def LINE_JOIN_TYPES : List String :=
  ["undefined", "miter", "round", "bevel"]

/-- The list of paint method types (`PAINT_METHOD_TYPES`). -/
def PAINT_METHOD_TYPES : List String :=
  ["undefined", "point", "replace", "floodfill", "filltoborder", "reset"]

/-- A native pixel color handle value, abstracted to its payload. -/
abbrev ColorVal := Nat

/-- The native drawing wand state observed through the per-attribute
entry points the module calls.  Enumerated attributes are stored as their
native integer index; `lastError` is the wand's last-error channel
consulted by `Resource.raise_exception`. -/
structure DrawingWand where
  clipRule : Nat := 0
  clipUnits : Nat := 0
  fillRule : Nat := 0
  strokeLineCap : Nat := 0
  strokeLineJoin : Nat := 0
  textAlignment : Nat := 0
  textDecoration : Nat := 0
  textDirection : Nat := 0
  gravity : Nat := 0
  strokeWidth : ℚ := 1
  fontSize : ℚ := 0
  strokeColor : ColorVal := 0
  textInterlineSpacing : ℚ := 0
  lastError : Option String := none
  deriving Repr, DecidableEq

/-- The wand returned by `library.NewDrawingWand`. -/
def initialWand : DrawingWand := {}

/- Native per-attribute entry points, modelled from the spec (§6): each
setter stores the given value in the wand, each getter loads it. -/

def DrawSetClipRule (w : DrawingWand) (i : Nat) : DrawingWand :=
  { w with clipRule := i }

def DrawGetClipRule (w : DrawingWand) : Nat := w.clipRule

def DrawSetClipUnits (w : DrawingWand) (i : Nat) : DrawingWand :=
  { w with clipUnits := i }

def DrawGetClipUnits (w : DrawingWand) : Nat := w.clipUnits

def DrawSetFillRule (w : DrawingWand) (i : Nat) : DrawingWand :=
  { w with fillRule := i }

def DrawGetFillRule (w : DrawingWand) : Nat := w.fillRule

def DrawSetStrokeLineCap (w : DrawingWand) (i : Nat) : DrawingWand :=
  { w with strokeLineCap := i }

def DrawGetStrokeLineCap (w : DrawingWand) : Nat := w.strokeLineCap

def DrawSetStrokeLineJoin (w : DrawingWand) (i : Nat) : DrawingWand :=
  { w with strokeLineJoin := i }

def DrawGetStrokeLineJoin (w : DrawingWand) : Nat := w.strokeLineJoin

def DrawSetTextAlignment (w : DrawingWand) (i : Nat) : DrawingWand :=
  { w with textAlignment := i }

def DrawGetTextAlignment (w : DrawingWand) : Nat := w.textAlignment

def DrawSetTextDecoration (w : DrawingWand) (i : Nat) : DrawingWand :=
  { w with textDecoration := i }

def DrawGetTextDecoration (w : DrawingWand) : Nat := w.textDecoration

def DrawSetTextDirection (w : DrawingWand) (i : Nat) : DrawingWand :=
  { w with textDirection := i }

def DrawGetTextDirection (w : DrawingWand) : Nat := w.textDirection

def DrawSetGravity (w : DrawingWand) (i : Nat) : DrawingWand :=
  { w with gravity := i }

def DrawGetGravity (w : DrawingWand) : Nat := w.gravity

def DrawSetStrokeWidth (w : DrawingWand) (q : ℚ) : DrawingWand :=
  { w with strokeWidth := q }

def DrawSetFontSize (w : DrawingWand) (q : ℚ) : DrawingWand :=
  { w with fontSize := q }

/-- Modelled from the spec: `Resource.raise_exception` lives in
`wand/resource.py`, which is not among the provided sources.  Per §4.2 and
§7 of the spec, it queries the native last-error channel and re-raises a
pending error as a host exception carrying the native message; when no
native error is pending there is nothing to surface and control returns to
the caller. -/
def raise_exception (w : DrawingWand) : Option PyErr :=
  w.lastError.map PyErr.wandError

/-- A record of one native mutation call issued by a wrapper method. -/
inductive NativeCall where
  | drawSetClipRule (i : Nat)
  | drawSetClipUnits (i : Nat)
  | drawSetFillRule (i : Nat)
  | drawSetStrokeLineCap (i : Nat)
  | drawSetStrokeLineJoin (i : Nat)
  | drawSetTextAlignment (i : Nat)
  | drawSetTextDecoration (i : Nat)
  | drawSetTextDirection (i : Nat)
  | drawSetGravity (i : Nat)
  | drawSetStrokeWidth (q : ℚ)
  | drawSetFontSize (q : ℚ)
  | drawSetTextInterlineSpacing (q : ℚ)
  | drawSetStrokeColor (c : ColorVal)
  deriving Repr, DecidableEq

/-- Result type of a mutating wrapper method: the updated wand together
with the native calls issued, or the Python exception raised (in which
case no native call was issued and the wand is untouched). -/
abbrev SetResult := Except PyErr (DrawingWand × List NativeCall)

/- Wrapper property accessors, one pair per enumerated property,
translated clause by clause from `Drawing` in `wand/drawing.py`. -/

/-- `Drawing.clip_rule` getter: `return FILL_RULE_TYPES[clip_rule]`. -/
def clip_rule_getter (w : DrawingWand) : Except PyErr String :=
  let clip_rule := DrawGetClipRule w
  tupleIndex FILL_RULE_TYPES clip_rule

/-- `Drawing.clip_rule` setter. -/
def clip_rule_setter (w : DrawingWand) (clip_rule : PyVal) : SetResult :=
  match clip_rule with
  | .int _ => .error (.typeError "expected a string")
  | .str s =>
    if pyIn (.str s) FILL_RULE_TYPES = false then
      .error (.valueError "expected a string from FILE_RULE_TYPES")
    else
      .ok (DrawSetClipRule w (FILL_RULE_TYPES.indexOf s),
           [.drawSetClipRule (FILL_RULE_TYPES.indexOf s)])

/-- `Drawing.clip_units` getter: `return CLIP_PATH_UNITS[clip_unit]`. -/
def clip_units_getter (w : DrawingWand) : Except PyErr String :=
  let clip_unit := DrawGetClipUnits w
  tupleIndex CLIP_PATH_UNITS clip_unit

/-- `Drawing.clip_units` setter. -/
def clip_units_setter (w : DrawingWand) (clip_unit : PyVal) : SetResult :=
  match clip_unit with
  | .int _ => .error (.typeError "expected a string")
  | .str s =>
    if pyIn (.str s) CLIP_PATH_UNITS = false then
      .error (.valueError "expected a string from CLIP_PATH_UNITS")
    else
      .ok (DrawSetClipUnits w (CLIP_PATH_UNITS.indexOf s),
           [.drawSetClipUnits (CLIP_PATH_UNITS.indexOf s)])

/-- `Drawing.fill_rule` getter: queries the index, takes the
`raise_exception` branch when the index is `not in FILL_RULE_TYPES`, then
indexes the tuple. -/
def fill_rule_getter (w : DrawingWand) : Except PyErr String :=
  let fill_rule_index := DrawGetFillRule w
  match (if pyIn (.int fill_rule_index) FILL_RULE_TYPES = false
         then raise_exception w else none) with
  | some e => .error e
  | none => tupleIndex FILL_RULE_TYPES fill_rule_index

/-- `Drawing.fill_rule` setter. -/
def fill_rule_setter (w : DrawingWand) (fill_rule : PyVal) : SetResult :=
  match fill_rule with
  | .int _ => .error (.typeError "expected a string")
  | .str s =>
    if pyIn (.str s) FILL_RULE_TYPES = false then
      .error (.valueError "expected a string from FILE_RULE_TYPES")
    else
      .ok (DrawSetFillRule w (FILL_RULE_TYPES.indexOf s),
           [.drawSetFillRule (FILL_RULE_TYPES.indexOf s)])

/-- `Drawing.stroke_line_cap` getter (same failure test as `fill_rule`). -/
def stroke_line_cap_getter (w : DrawingWand) : Except PyErr String :=
  let line_cap_index := DrawGetStrokeLineCap w
  match (if pyIn (.int line_cap_index) LINE_CAP_TYPES = false
         then raise_exception w else none) with
  | some e => .error e
  | none => tupleIndex LINE_CAP_TYPES line_cap_index

/-- `Drawing.stroke_line_cap` setter. -/
def stroke_line_cap_setter (w : DrawingWand) (line_cap : PyVal) : SetResult :=
  match line_cap with
  | .int _ => .error (.typeError "expected a string")
  | .str s =>
    if pyIn (.str s) LINE_CAP_TYPES = false then
      .error (.valueError "expected a string from LINE_CAP_TYPES")
    else
      .ok (DrawSetStrokeLineCap w (LINE_CAP_TYPES.indexOf s),
           [.drawSetStrokeLineCap (LINE_CAP_TYPES.indexOf s)])

/-- `Drawing.stroke_line_join` getter (same failure test as `fill_rule`). -/
def stroke_line_join_getter (w : DrawingWand) : Except PyErr String :=
  let line_join_index := DrawGetStrokeLineJoin w
  match (if pyIn (.int line_join_index) LINE_JOIN_TYPES = false
         then raise_exception w else none) with
  | some e => .error e
  | none => tupleIndex LINE_JOIN_TYPES line_join_index

/-- `Drawing.stroke_line_join` setter. -/
def stroke_line_join_setter (w : DrawingWand) (line_join : PyVal) : SetResult :=
  match line_join with
  | .int _ => .error (.typeError "expected a string")
  | .str s =>
    if pyIn (.str s) LINE_JOIN_TYPES = false then
      .error (.valueError "expected a string from LINE_JOIN_TYPES")
    else
      .ok (DrawSetStrokeLineJoin w (LINE_JOIN_TYPES.indexOf s),
           [.drawSetStrokeLineJoin (LINE_JOIN_TYPES.indexOf s)])

/-- `Drawing.text_alignment` getter: treats a zero index as the failure
signal (`if not text_alignment_index`), then indexes the tuple. -/
def text_alignment_getter (w : DrawingWand) : Except PyErr String :=
  let text_alignment_index := DrawGetTextAlignment w
  match (if text_alignment_index = 0 then raise_exception w else none) with
  | some e => .error e
  | none => tupleIndex TEXT_ALIGN_TYPES text_alignment_index

/-- `Drawing.text_alignment` setter. -/
def text_alignment_setter (w : DrawingWand) (align : PyVal) : SetResult :=
  match align with
  | .int _ => .error (.typeError "expected a string")
  | .str s =>
    if pyIn (.str s) TEXT_ALIGN_TYPES = false then
      .error (.valueError "expected a string from TEXT_ALIGN_TYPES")
    else
      .ok (DrawSetTextAlignment w (TEXT_ALIGN_TYPES.indexOf s),
           [.drawSetTextAlignment (TEXT_ALIGN_TYPES.indexOf s)])

/-- `Drawing.text_decoration` getter (zero index treated as failure). -/
def text_decoration_getter (w : DrawingWand) : Except PyErr String :=
  let text_decoration_index := DrawGetTextDecoration w
  match (if text_decoration_index = 0 then raise_exception w else none) with
  | some e => .error e
  | none => tupleIndex TEXT_DECORATION_TYPES text_decoration_index

/-- `Drawing.text_decoration` setter. -/
def text_decoration_setter (w : DrawingWand) (decoration : PyVal) : SetResult :=
  match decoration with
  | .int _ => .error (.typeError "expected a string")
  | .str s =>
    if pyIn (.str s) TEXT_DECORATION_TYPES = false then
      .error (.valueError "expected a string from TEXT_DECORATION_TYPES")
    else
      .ok (DrawSetTextDecoration w (TEXT_DECORATION_TYPES.indexOf s),
           [.drawSetTextDecoration (TEXT_DECORATION_TYPES.indexOf s)])

/-- `Drawing.text_direction` getter (zero index treated as failure). -/
def text_direction_getter (w : DrawingWand) : Except PyErr String :=
  let text_direction_index := DrawGetTextDirection w
  match (if text_direction_index = 0 then raise_exception w else none) with
  | some e => .error e
  | none => tupleIndex TEXT_DIRECTION_TYPES text_direction_index

/-- `Drawing.text_direction` setter. -/
def text_direction_setter (w : DrawingWand) (direction : PyVal) : SetResult :=
  match direction with
  | .int _ => .error (.typeError "expected a string")
  | .str s =>
    if pyIn (.str s) TEXT_DIRECTION_TYPES = false then
      .error (.valueError "expected a string from TEXT_DIRECTION_TYPES")
    else
      .ok (DrawSetTextDirection w (TEXT_DIRECTION_TYPES.indexOf s),
           [.drawSetTextDirection (TEXT_DIRECTION_TYPES.indexOf s)])

/-- `Drawing.gravity` getter (zero index treated as failure). -/
def gravity_getter (w : DrawingWand) : Except PyErr String :=
  let gravity_index := DrawGetGravity w
  match (if gravity_index = 0 then raise_exception w else none) with
  | some e => .error e
  | none => tupleIndex GRAVITY_TYPES gravity_index

/-- `Drawing.gravity` setter. -/
def gravity_setter (w : DrawingWand) (value : PyVal) : SetResult :=
  match value with
  | .int _ => .error (.typeError "expected a string")
  | .str s =>
    if pyIn (.str s) GRAVITY_TYPES = false then
      .error (.valueError "expected a string from GRAVITY_TYPES")
    else
      .ok (DrawSetGravity w (GRAVITY_TYPES.indexOf s),
           [.drawSetGravity (GRAVITY_TYPES.indexOf s)])

/-- Set a property and immediately read it back through the paired
getter, as in the round-trip property of the spec (§8.1). -/
def setThenGet (set_result : SetResult)
    (get_f : DrawingWand → Except PyErr String) : Except PyErr String :=
  match set_result with
  | .error e => .error e
  | .ok (w, _) => get_f w

/-- A Python value passed where `numbers.Real` is expected: an actual
real (embedded as `ℚ`) or any non-`Real` object. -/
inductive PyNum where
  | real (q : ℚ)
  | nonReal
  deriving Repr, DecidableEq

/-- `Drawing.stroke_width` setter: `isinstance` check, then the
non-negative domain check, then `library.DrawSetStrokeWidth`. -/
def stroke_width_setter (w : DrawingWand) (width : PyNum) : SetResult :=
  match width with
  | .nonReal => .error (.typeError "expected a numbers.Real")
  | .real q =>
    if q < 0 then
      .error (.valueError "cannot be less then 0.0")
    else
      .ok (DrawSetStrokeWidth w q, [.drawSetStrokeWidth q])

/-- `Drawing.font_size` setter: `isinstance` check, then the
non-negative domain check, then `library.DrawSetFontSize`. -/
def font_size_setter (w : DrawingWand) (size : PyNum) : SetResult :=
  match size with
  | .nonReal => .error (.typeError "expected a numbers.Real")
  | .real q =>
    if q < 0 then
      .error (.valueError "cannot be less then 0.0")
    else
      .ok (DrawSetFontSize w q, [.drawSetFontSize q])

/-- `true` when the optional argument is absent or an actual real, i.e.
when `right is None or isinstance(right, numbers.Real)` holds. -/
def optIsReal : Option PyNum → Bool
  | none => true
  | some (.real _) => true
  | some .nonReal => false

/-- `Drawing.rectangle`, translated branch by branch.  The success value
is the argument tuple of the one native `DrawRectangle` call the method
issues (`left, top, right, bottom`).  The two `unreachable` error
branches are dead: the presence and exclusivity checks above them have
already raised on every input that could reach them. -/
def rectangle (left top right bottom width height : Option PyNum) :
    Except PyErr (ℚ × ℚ × ℚ × ℚ) :=
  match left with
  | none => .error (.typeError "left is missing")
  | some leftv =>
  match top with
  | none => .error (.typeError "top is missing")
  | some topv =>
  if right.isNone && width.isNone then
    .error (.typeError "right/width is missing")
  else if bottom.isNone && height.isNone then
    .error (.typeError "bottom/height is missing")
  else if right.isSome && width.isSome then
    .error (.typeError "parameters right and width are exclusive each other; use one at a time")
  else if bottom.isSome && height.isSome then
    .error (.typeError "parameters bottom and height are exclusive each other; use one at a time")
  else
  match leftv with
  | .nonReal => .error (.typeError "left must be numbers.Real")
  | .real l =>
  match topv with
  | .nonReal => .error (.typeError "top must be numbers.Real")
  | .real t =>
  if optIsReal right = false then
    .error (.typeError "right must be numbers.Real")
  else if optIsReal bottom = false then
    .error (.typeError "bottom must be numbers.Real")
  else if optIsReal width = false then
    .error (.typeError "width must be numbers.Real")
  else if optIsReal height = false then
    .error (.typeError "height must be numbers.Real")
  else do
    let r ← (match right with
      | none =>
        match width with
        | some (.real wv) =>
          if wv < 0 then .error (.valueError "width must be positive")
          else .ok (l + wv)
        | _ => .error (.typeError "unreachable")
      | some (.real rv) =>
        if rv < l then .error (.valueError "right must be more than left")
        else .ok rv
      | some .nonReal => .error (.typeError "unreachable"))
    let b ← (match bottom with
      | none =>
        match height with
        | some (.real hv) =>
          if hv < 0 then .error (.valueError "height must be positive")
          else .ok (t + hv)
        | _ => .error (.typeError "unreachable")
      | some (.real bv) =>
        if bv < t then .error (.valueError "bottom must be more than top")
        else .ok bv
      | some .nonReal => .error (.typeError "unreachable"))
    return (l, t, r, b)

/-- Shorthand for passing a present real argument. -/
def pr (q : ℚ) : Option PyNum := some (.real q)

/-- The `points` argument of `polygon`, `polyline` and `bezier`: a Python
list of 2-element numeric pairs, or any object that is not a list. -/
inductive PointsArg where
  | pyList (pts : List (ℚ × ℚ))
  | nonList
  deriving Repr, DecidableEq

/-- Python `points[tuple_index][tuple_offset]` for a pair: offset 0 is the
x member, offset 1 the y member. -/
def pairGet (p : ℚ × ℚ) (tuple_offset : Nat) : ℚ :=
  if tuple_offset = 0 then p.1 else p.2

/-- `_list_to_point_info`, translated from the source: reject non-list
input, then fill a `c_double` array of size `len(points) * 2` with
`points[i // 2][i % 2]` at each index `i`, returning the point count and
the array.  (Every index fed to `getD` is in range, so the default is
never consulted.) -/
def _list_to_point_info (points : PointsArg) :
    Except PyErr (Nat × List ℚ) :=
  match points with
  | .nonList => .error (.typeError "points must be a list")
  | .pyList pts =>
    let point_length := pts.length
    let tuple_size := 2
    let point_info_size := point_length * tuple_size
    let point_info := (List.range point_info_size).map
      (fun double_index =>
        pairGet (pts.getD (double_index / tuple_size) (0, 0))
                (double_index % tuple_size))
    .ok (point_length, point_info)

/-- `Drawing.text_interline_spacing` getter.  The first argument models
`library.DrawGetTextInterlineSpacing`: `none` when the native entry point
was not resolved at load time, otherwise the resolved function. -/
def text_interline_spacing_getter
    (drawGetTextInterlineSpacing : Option (DrawingWand → ℚ))
    (w : DrawingWand) : Except PyErr ℚ :=
  match drawGetTextInterlineSpacing with
  | none => .error (.wandLibraryVersionError
      "The installed version of ImageMagick does not support this feature")
  | some f => .ok (f w)

/-- `Drawing.text_interline_spacing` setter, with the same treatment of
`library.DrawSetTextInterlineSpacing`. -/
def text_interline_spacing_setter
    (drawSetTextInterlineSpacing : Option (DrawingWand → ℚ → DrawingWand))
    (w : DrawingWand) (spacing : PyNum) : SetResult :=
  match drawSetTextInterlineSpacing with
  | none => .error (.wandLibraryVersionError
      "The installed version of ImageMagick does not support this feature")
  | some f =>
    match spacing with
    | .nonReal => .error (.typeError "expected a numbers.Real")
    | .real q => .ok (f w q, [.drawSetTextInterlineSpacing q])

/-- A native handle value (the opaque pointer of the data model). -/
abbrev Handle := Nat

/-- The native library heap: the drawing wands allocated so far, keyed by
handle.  Handles are allocated in increasing order, so every live handle
is below `nextHandle`. -/
structure NativeHeap where
  wands : Handle → Option DrawingWand
  nextHandle : Handle

/-- `library.NewDrawingWand`: allocate a fresh, independent wand. -/
def NewDrawingWand (h : NativeHeap) : NativeHeap × Handle :=
  ({ wands := fun k => if k = h.nextHandle then some initialWand else h.wands k,
     nextHandle := h.nextHandle + 1 },
   h.nextHandle)

/-- Modelled from the spec: `library.CloneDrawingWand` (§4.1, "Cloning
allocates a brand-new handle by asking the native library to duplicate
internal state; the clone is fully independent").  The fresh handle maps
to a copy of the source wand's state; every other handle is untouched. -/
def CloneDrawingWand (h : NativeHeap) (src : Handle) : NativeHeap × Handle :=
  ({ wands := fun k => if k = h.nextHandle then h.wands src else h.wands k,
     nextHandle := h.nextHandle + 1 },
   h.nextHandle)

/-- `Drawing.clone` / `Drawing(drawing=d)`: under the `allocate()` scope
the wrapper calls `library.CloneDrawingWand(drawing.resource)` and binds
the returned handle as the new object's resource. -/
def Drawing.clone (h : NativeHeap) (src : Handle) : NativeHeap × Handle :=
  CloneDrawingWand h src

/-- `library.DrawSetStrokeColor` on the heap: update the stroke color of
the wand the handle refers to, and no other wand. -/
def DrawSetStrokeColorH (h : NativeHeap) (hd : Handle) (c : ColorVal) :
    NativeHeap :=
  { h with wands := fun k =>
      if k = hd then (h.wands k).map (fun w => { w with strokeColor := c })
      else h.wands k }

/-- `library.DrawGetStrokeColor` on the heap: read the stroke color of
the wand the handle refers to. -/
def DrawGetStrokeColorH (h : NativeHeap) (hd : Handle) : Option ColorVal :=
  (h.wands hd).map (fun w => w.strokeColor)

/-- The `color` argument of the `stroke_color` setter: a
`wand.color.Color` instance (abstracted to its pixel value) or any other
object. -/
inductive PyColorArg where
  | color (c : ColorVal)
  | nonColor
  deriving Repr, DecidableEq

/-- `Drawing.stroke_color` setter on a heap object: `isinstance` check,
then one `library.DrawSetStrokeColor` call on this object's handle. -/
def stroke_color_setter (h : NativeHeap) (hd : Handle) (color : PyColorArg) :
    Except PyErr NativeHeap :=
  match color with
  | .nonColor => .error (.typeError "color must be a wand.color.Color object")
  | .color c => .ok (DrawSetStrokeColorH h hd c)

/-- One native path command, as appended to a wand's current path. -/
inductive PathCmd where
  | pathStart
  | pathFinish
  | pathClose
  | moveToAbs (x y : ℚ)
  | moveToRel (x y : ℚ)
  | lineToAbs (x y : ℚ)
  | lineToRel (x y : ℚ)
  | hLineToAbs (x : ℚ)
  | hLineToRel (x : ℚ)
  | vLineToAbs (y : ℚ)
  | vLineToRel (y : ℚ)
  | curveToAbs (x1 y1 x2 y2 x y : ℚ)
  | curveToRel (x1 y1 x2 y2 x y : ℚ)
  | curveSmoothAbs (x2 y2 x y : ℚ)
  | curveSmoothRel (x2 y2 x y : ℚ)
  | quadAbs (x1 y1 x y : ℚ)
  | quadRel (x1 y1 x y : ℚ)
  | quadSmoothAbs (x y : ℚ)
  | quadSmoothRel (x y : ℚ)
  | ellipticAbs (rx ry rot : ℚ) (largeArc clockwise : Bool) (x y : ℚ)
  | ellipticRel (rx ry rot : ℚ) (largeArc clockwise : Bool) (x y : ℚ)
  deriving Repr, DecidableEq

/-- The wand state relevant to path construction: the implicit current
path accumulated inside the native handle. -/
structure PathWand where
  path : List PathCmd := []
  deriving Repr, DecidableEq

/-- The native `DrawPath*` entry points all append one command to the
wand's current path. -/
def appendPath (w : PathWand) (c : PathCmd) : PathWand :=
  { w with path := w.path ++ [c] }

/-- A drawing object as the path operators see it: its handle together
with its wand state.  Returning the same `obj` field models
`return self`. -/
structure PathDrawing where
  obj : Handle
  wand : PathWand
  deriving Repr, DecidableEq

/-- Result of a path operator: the (possibly updated) drawing carrying
the returned object, or the Python exception raised. -/
abbrev PathResult := Except PyErr PathDrawing

/-- `Drawing.path_start`. -/
def path_start (d : PathDrawing) : PathResult :=
  .ok { d with wand := appendPath d.wand .pathStart }

/-- `Drawing.path_finish`. -/
def path_finish (d : PathDrawing) : PathResult :=
  .ok { d with wand := appendPath d.wand .pathFinish }

/-- `Drawing.path_close`. -/
def path_close (d : PathDrawing) : PathResult :=
  .ok { d with wand := appendPath d.wand .pathClose }

/-- `Drawing.path_move`. -/
def path_move (d : PathDrawing) (toArg : Option (ℚ × ℚ))
    (relative : Bool) : PathResult :=
  match toArg with
  | none => .error (.typeError "to is missing")
  | some (x, y) =>
    if relative then .ok { d with wand := appendPath d.wand (.moveToRel x y) }
    else .ok { d with wand := appendPath d.wand (.moveToAbs x y) }

/-- `Drawing.path_line`. -/
def path_line (d : PathDrawing) (toArg : Option (ℚ × ℚ))
    (relative : Bool) : PathResult :=
  match toArg with
  | none => .error (.typeError "to is missing")
  | some (x, y) =>
    if relative then .ok { d with wand := appendPath d.wand (.lineToRel x y) }
    else .ok { d with wand := appendPath d.wand (.lineToAbs x y) }

/-- `Drawing.path_horizontal_line`. -/
def path_horizontal_line (d : PathDrawing) (x : Option ℚ)
    (relative : Bool) : PathResult :=
  match x with
  | none => .error (.typeError "x is missing")
  | some xv =>
    if relative then .ok { d with wand := appendPath d.wand (.hLineToRel xv) }
    else .ok { d with wand := appendPath d.wand (.hLineToAbs xv) }

/-- `Drawing.path_vertical_line`. -/
def path_vertical_line (d : PathDrawing) (y : Option ℚ)
    (relative : Bool) : PathResult :=
  match y with
  | none => .error (.typeError "y is missing")
  | some yv =>
    if relative then .ok { d with wand := appendPath d.wand (.vLineToRel yv) }
    else .ok { d with wand := appendPath d.wand (.vLineToAbs yv) }

/-- The `controls` argument of `path_curve`: one coordinate pair (as the
smooth form expects) or two (as the full form expects). -/
inductive CtrlArg where
  | one (p : ℚ × ℚ)
  | two (p q : ℚ × ℚ)
  deriving Repr, DecidableEq

/-- `Drawing.path_curve`.  The unpacking of `controls` into one or two
pairs raises when the shape does not match the `smooth` flag, as the
tuple unpacking in the source does. -/
def path_curve (d : PathDrawing) (toArg : Option (ℚ × ℚ))
    (controls : Option CtrlArg) (smooth relative : Bool) : PathResult :=
  match toArg with
  | none => .error (.typeError "to is missing")
  | some (x, y) =>
  match controls with
  | none => .error (.typeError "controls is missing")
  | some ctl =>
    if smooth then
      match ctl with
      | .one (x2, y2) =>
        if relative then
          .ok { d with wand := appendPath d.wand (.curveSmoothRel x2 y2 x y) }
        else
          .ok { d with wand := appendPath d.wand (.curveSmoothAbs x2 y2 x y) }
      | .two _ _ => .error (.valueError "too many values to unpack")
    else
      match ctl with
      | .two (x1, y1) (x2, y2) =>
        if relative then
          .ok { d with wand := appendPath d.wand (.curveToRel x1 y1 x2 y2 x y) }
        else
          .ok { d with wand := appendPath d.wand (.curveToAbs x1 y1 x2 y2 x y) }
      | .one _ => .error (.valueError "not enough values to unpack")

/-- `Drawing.path_curve_to_quadratic_bezier`. -/
def path_curve_to_quadratic_bezier (d : PathDrawing)
    (toArg control : Option (ℚ × ℚ)) (smooth relative : Bool) : PathResult :=
  match toArg with
  | none => .error (.typeError "to is missing")
  | some (x, y) =>
    if smooth then
      if relative then
        .ok { d with wand := appendPath d.wand (.quadSmoothRel x y) }
      else
        .ok { d with wand := appendPath d.wand (.quadSmoothAbs x y) }
    else
      match control with
      | none => .error (.typeError "control is missing")
      | some (x1, y1) =>
        if relative then
          .ok { d with wand := appendPath d.wand (.quadRel x1 y1 x y) }
        else
          .ok { d with wand := appendPath d.wand (.quadAbs x1 y1 x y) }

/-- `Drawing.path_elliptic_arc`. -/
def path_elliptic_arc (d : PathDrawing) (toArg radius : Option (ℚ × ℚ))
    (rotation : ℚ) (large_arc clockwise relative : Bool) : PathResult :=
  match toArg with
  | none => .error (.typeError "to is missing")
  | some (x, y) =>
  match radius with
  | none => .error (.typeError "radius is missing")
  | some (rx, ry) =>
    if relative then
      let w := appendPath d.wand (.ellipticRel rx ry rotation large_arc clockwise x y)
      .ok { d with wand := w }
    else
      let w := appendPath d.wand (.ellipticAbs rx ry rotation large_arc clockwise x y)
      .ok { d with wand := w }

/-- `true` when a path operator either raised, or returned exactly the
object it was invoked on (`return self`). -/
def returnsSelf (r : PathResult) (d : PathDrawing) : Bool :=
  match r with
  | .ok res => res.obj == d.obj
  | .error _ => true

/-- The flat (x0, y0, x1, y1, …) order stated by the spec for the
coordinate-marshalling routine (§4.3): the comparison target for
`_list_to_point_info`. -/
def flattenPairs : List (ℚ × ℚ) → List ℚ
  | [] => []
  | (x, y) :: rest => x :: y :: flattenPairs rest

/-- Whether a fallible computation raised a `TypeError`. -/
def errIsTypeError {α : Type} : Except PyErr α → Bool
  | .error e => e.isTypeError
  | .ok _ => false

/-- Whether a fallible computation raised a `ValueError`. -/
def errIsValueError {α : Type} : Except PyErr α → Bool
  | .error e => e.isValueError
  | .ok _ => false

/-- A concrete one-wand heap: handle 0 holds a fresh wand. -/
def heap0 : NativeHeap :=
  { wands := fun k => if k = 0 then some initialWand else none,
    nextHandle := 1 }

/-- Claim C8: if the native entry point for text inter-line spacing was
not resolved at load time (the function pointer is `None`), both the
getter and the setter of `text_interline_spacing` raise
`WandLibraryVersionError` immediately, with no native call and no silent
no-op. -/
theorem interline_spacing_version_guard :
    ∀ (w : DrawingWand) (spacing : PyNum),
      text_interline_spacing_getter none w =
        .error (.wandLibraryVersionError
          "The installed version of ImageMagick does not support this feature") ∧
      text_interline_spacing_setter none w spacing =
        .error (.wandLibraryVersionError
          "The installed version of ImageMagick does not support this feature") := by
  intro w spacing
  exact ⟨rfl, rfl⟩

/-- Claim C10: every path-construction operator of `Drawing` returns the
Drawing object itself on every successful call, so calls can be
chained. -/
theorem path_operators_return_self :
    ∀ (d : PathDrawing) (toArg radius control : Option (ℚ × ℚ))
      (controls : Option CtrlArg) (ox oy : Option ℚ) (rotation : ℚ)
      (smooth relative large_arc clockwise : Bool),
      returnsSelf (path_start d) d = true ∧
      returnsSelf (path_finish d) d = true ∧
      returnsSelf (path_close d) d = true ∧
      returnsSelf (path_move d toArg relative) d = true ∧
      returnsSelf (path_line d toArg relative) d = true ∧
      returnsSelf (path_horizontal_line d ox relative) d = true ∧
      returnsSelf (path_vertical_line d oy relative) d = true ∧
      returnsSelf (path_curve d toArg controls smooth relative) d = true ∧
      returnsSelf
        (path_curve_to_quadratic_bezier d toArg control smooth relative) d
        = true ∧
      returnsSelf
        (path_elliptic_arc d toArg radius rotation large_arc clockwise
          relative) d = true := by
  intro d toArg radius control controls ox oy rotation smooth relative
    large_arc clockwise
  have hself : ∀ w : PathWand, returnsSelf (.ok { d with wand := w }) d = true := by
    intro w; simp [returnsSelf]
  refine ⟨hself _, hself _, hself _, ?_, ?_, ?_, ?_, ?_, ?_, ?_⟩
  · rcases toArg with _ | ⟨x, y⟩
    · rfl
    · cases relative <;> exact hself _
  · rcases toArg with _ | ⟨x, y⟩
    · rfl
    · cases relative <;> exact hself _
  · rcases ox with _ | x
    · rfl
    · cases relative <;> exact hself _
  · rcases oy with _ | y
    · rfl
    · cases relative <;> exact hself _
  · rcases toArg with _ | ⟨x, y⟩
    · rfl
    · rcases controls with _ | ctl
      · rfl
      · cases smooth
        · rcases ctl with ⟨p⟩ | ⟨p, q⟩
          · rfl
          · rcases p with ⟨a, b⟩; rcases q with ⟨c, e⟩
            cases relative <;> exact hself _
        · rcases ctl with ⟨p⟩ | ⟨p, q⟩
          · rcases p with ⟨a, b⟩
            cases relative <;> exact hself _
          · rfl
  · rcases toArg with _ | ⟨x, y⟩
    · rfl
    · cases smooth
      · rcases control with _ | ⟨a, b⟩
        · rfl
        · cases relative <;> exact hself _
      · cases relative <;> exact hself _
  · rcases toArg with _ | ⟨x, y⟩
    · rfl
    · rcases radius with _ | ⟨rx, ry⟩
      · rfl
      · cases relative <;> exact hself _

/-- Claim C9: in the getters of `fill_rule`, `stroke_line_cap` and
`stroke_line_join`, the failure test checks the native integer index for
membership in the tuple of string tokens; for every integer this
membership is false, so the test is true and the `raise_exception` branch
is taken on every get — in particular, whenever a native error is
pending, all three getters raise it regardless of the index returned. -/
theorem enum_getter_membership_test_always_fires :
    (∀ (i : Nat) (ts : List String), pyIn (.int i) ts = false) ∧
    (∀ (w : DrawingWand) (msg : String), w.lastError = some msg →
      fill_rule_getter w = .error (.wandError msg) ∧
      stroke_line_cap_getter w = .error (.wandError msg) ∧
      stroke_line_join_getter w = .error (.wandError msg)) := by
  constructor
  · intro i ts
    simp [pyIn, pyEq]
  · intro w msg h
    refine ⟨?_, ?_, ?_⟩ <;>
      simp [fill_rule_getter, stroke_line_cap_getter, stroke_line_join_getter,
            raise_exception, h, pyIn, pyEq]

/-- Witness for `enum_getter_membership_test_always_fires` at a concrete
wand with a pending native error and index 2. -/
theorem enum_getter_membership_witness :
    pyIn (.int 2) FILL_RULE_TYPES = false ∧
    fill_rule_getter { initialWand with fillRule := 2, lastError := some "boom" } =
      .error (.wandError "boom") := by
  refine ⟨enum_getter_membership_test_always_fires.1 2 FILL_RULE_TYPES, ?_⟩
  exact (enum_getter_membership_test_always_fires.2
    { initialWand with fillRule := 2, lastError := some "boom" } "boom" rfl).1

/-- Claim C5: the `stroke_width` and `font_size` setters raise
`ValueError` for every negative real input and `TypeError` for non-real
input, in both cases before any native call, so native state is never
mutated by such a call. -/
theorem negative_numeric_setters_raise :
    ∀ (w : DrawingWand) (q : ℚ), q < 0 →
      (stroke_width_setter w (.real q) =
          .error (.valueError "cannot be less then 0.0") ∧
        font_size_setter w (.real q) =
          .error (.valueError "cannot be less then 0.0")) ∧
      (stroke_width_setter w .nonReal =
          .error (.typeError "expected a numbers.Real") ∧
        font_size_setter w .nonReal =
          .error (.typeError "expected a numbers.Real")) := by
  intro w q hq
  refine ⟨⟨?_, ?_⟩, rfl, rfl⟩ <;>
    simp [stroke_width_setter, font_size_setter, hq]

/-- Witness for `negative_numeric_setters_raise` at a fresh wand and
width `-1`. -/
theorem negative_numeric_setters_witness :
    stroke_width_setter initialWand (.real (-1)) =
        .error (.valueError "cannot be less then 0.0") ∧
      font_size_setter initialWand (.real (-1)) =
        .error (.valueError "cannot be less then 0.0") :=
  (negative_numeric_setters_raise initialWand (-1) (by norm_num)).1

/-- Claim C6: `rectangle` in the corner+corner parameterization raises a
`ValueError` before the native `DrawRectangle` call whenever
`right < left`, and symmetrically whenever `bottom < top`.  The source
checks `right < left` first, so on that path the right/left message is
raised; when the right/left check passes and `bottom < top`, the
bottom/top message is raised; in every case with `right < left` or
`bottom < top`, a `ValueError` is raised and `DrawRectangle` is never
reached. -/
theorem rectangle_corner_checks_raise :
    ∀ l t r b : ℚ,
      (r < l →
        rectangle (pr l) (pr t) (pr r) (pr b) none none =
          .error (.valueError "right must be more than left")) ∧
      (l ≤ r → b < t →
        rectangle (pr l) (pr t) (pr r) (pr b) none none =
          .error (.valueError "bottom must be more than top")) ∧
      (r < l ∨ b < t →
        errIsValueError (rectangle (pr l) (pr t) (pr r) (pr b) none none)
          = true) := by
  intro l t r b
  refine ⟨?_, ?_, ?_⟩
  · intro h
    simp [rectangle, pr, optIsReal, h, Bind.bind, Except.bind]
  · intro hlr hbt
    simp [rectangle, pr, optIsReal, not_lt.mpr hlr, hbt, Bind.bind,
          Except.bind]
  · intro h
    by_cases hr : r < l
    · simp [rectangle, pr, optIsReal, hr, Bind.bind, Except.bind,
            errIsValueError, PyErr.isValueError]
    · have hbt : b < t := h.resolve_left hr
      simp [rectangle, pr, optIsReal, hr, hbt, Bind.bind, Except.bind,
            errIsValueError, PyErr.isValueError]

/-- Witness for `rectangle_corner_checks_raise`:
`rectangle(left=5, top=5, right=2, bottom=10)` raises the right/left
`ValueError`, and `rectangle(left=5, top=5, right=7, bottom=3)` raises
the symmetric bottom/top `ValueError`. -/
theorem rectangle_corner_checks_witness :
    rectangle (pr 5) (pr 5) (pr 2) (pr 10) none none =
        .error (.valueError "right must be more than left") ∧
      rectangle (pr 5) (pr 5) (pr 7) (pr 3) none none =
        .error (.valueError "bottom must be more than top") :=
  ⟨(rectangle_corner_checks_raise 5 5 2 10).1 (by norm_num),
   (rectangle_corner_checks_raise 5 5 7 3).2.1 (by norm_num) (by norm_num)⟩

/-- Claim C2: the width/height parameterization of `rectangle` issues the
same native `DrawRectangle` call as the corner+corner parameterization
with `right = left + width` and `bottom = top + height` (in particular at
`left=0, top=0, width=10, height=20` versus `right=10, bottom=20`); and
supplying both `right` and `width`, or both `bottom` and `height`, raises
a `TypeError` before any native call. -/
theorem rectangle_parameterizations :
    (rectangle (pr 0) (pr 0) none none (pr 10) (pr 20) =
      rectangle (pr 0) (pr 0) (pr 10) (pr 20) none none) ∧
    (∀ l t wd ht : ℚ, 0 ≤ wd → 0 ≤ ht →
      rectangle (pr l) (pr t) none none (pr wd) (pr ht) =
        rectangle (pr l) (pr t) (pr (l + wd)) (pr (t + ht)) none none) ∧
    (∀ (left top bottom height : Option PyNum) (r wv : PyNum),
      errIsTypeError (rectangle left top (some r) bottom (some wv) height)
        = true) ∧
    (∀ (left top right width : Option PyNum) (bv hv : PyNum),
      errIsTypeError (rectangle left top right (some bv) width (some hv))
        = true) := by
  refine ⟨?_, ?_, ?_, ?_⟩
  · simp [rectangle, pr, optIsReal, Bind.bind, Except.bind]
    norm_num
  · intro l t wd ht hw hh
    have h1 : ¬ (l + wd < l) := by linarith
    have h2 : ¬ (t + ht < t) := by linarith
    have h3 : ¬ (wd < 0) := not_lt.mpr hw
    have h4 : ¬ (ht < 0) := not_lt.mpr hh
    simp [rectangle, pr, optIsReal, h1, h2, h3, h4, Bind.bind, Except.bind]
  · intro left top bottom height r wv
    rcases left with _ | lv <;> rcases top with _ | tv <;>
      rcases bottom with _ | bv2 <;> rcases height with _ | hv2 <;>
        simp [rectangle, errIsTypeError, PyErr.isTypeError]
  · intro left top right width bv hv
    rcases left with _ | lv <;> rcases top with _ | tv <;>
      rcases right with _ | rv2 <;> rcases width with _ | wv2 <;>
        simp [rectangle, errIsTypeError, PyErr.isTypeError]

/-- Witness for `rectangle_parameterizations`: the general equivalence at
`left=1, top=2, width=3, height=4`. -/
theorem rectangle_parameterizations_witness :
    rectangle (pr 1) (pr 2) none none (pr 3) (pr 4) =
      rectangle (pr 1) (pr 2) (pr (1 + 3)) (pr (2 + 4)) none none :=
  rectangle_parameterizations.2.1 1 2 3 4 (by norm_num) (by norm_num)

/-- The native array built by `_list_to_point_info` is the flat
(x0, y0, x1, y1, …) sequence of the input pairs. -/
theorem point_info_array_eq_flattenPairs (pts : List (ℚ × ℚ)) :
    (List.range (pts.length * 2)).map
      (fun double_index =>
        pairGet (pts.getD (double_index / 2) (0, 0)) (double_index % 2)) =
    flattenPairs pts := by
  induction pts with
  | nil => rfl
  | cons p rest ih =>
    rcases p with ⟨x, y⟩
    have h2 : ((x, y) :: rest).length * 2 = 2 + rest.length * 2 := by
      simp [List.length_cons]; ring
    rw [h2, List.range_add, List.map_append, List.map_map]
    have hfun :
        ((fun double_index =>
            pairGet (((x, y) :: rest).getD (double_index / 2) (0, 0))
              (double_index % 2)) ∘ (fun i => 2 + i)) =
        (fun double_index =>
          pairGet (rest.getD (double_index / 2) (0, 0)) (double_index % 2)) := by
      funext i
      have hd : (2 + i) / 2 = i / 2 + 1 := by omega
      have hm : (2 + i) % 2 = i % 2 := by omega
      simp [Function.comp, hd, hm, List.getD_cons_succ]
    rw [hfun, ih]
    rfl

/-- The flattened array has length `2 × N`. -/
theorem flattenPairs_length (pts : List (ℚ × ℚ)) :
    (flattenPairs pts).length = 2 * pts.length := by
  induction pts with
  | nil => rfl
  | cons p rest ih =>
    rcases p with ⟨x, y⟩
    simp [flattenPairs, ih]
    ring

/-- Claim C3: for every list of N pairs, `_list_to_point_info` produces
the flat array of length 2×N in (x0, y0, x1, y1, …) order together with
the reported point count N; flattening `[(1,2),(3,4)]` yields exactly
`[1, 2, 3, 4]` with reported length 2; and non-list input raises a
`TypeError` before any allocation or native call. -/
theorem list_to_point_info_spec :
    (∀ pts : List (ℚ × ℚ),
      _list_to_point_info (.pyList pts) = .ok (pts.length, flattenPairs pts) ∧
      (flattenPairs pts).length = 2 * pts.length) ∧
    (_list_to_point_info (.pyList [(1, 2), (3, 4)]) =
      .ok (2, [1, 2, 3, 4])) ∧
    (_list_to_point_info .nonList =
      .error (.typeError "points must be a list")) := by
  refine ⟨?_, ?_, rfl⟩
  · intro pts
    refine ⟨?_, flattenPairs_length pts⟩
    simp only [_list_to_point_info]
    rw [point_info_array_eq_flattenPairs]
  · rfl

/-- Claim C4: every enumerated-option property setter raises `ValueError`
for any string outside its documented token list, issuing no native call,
and for every member token issues exactly one native call encoding the
token as its index in the list. -/
theorem enum_setters_validate_and_encode :
    ∀ (w : DrawingWand) (s : String),
      ((pyIn (.str s) FILL_RULE_TYPES = false →
          clip_rule_setter w (.str s) =
            .error (.valueError "expected a string from FILE_RULE_TYPES")) ∧
        (pyIn (.str s) FILL_RULE_TYPES = true →
          clip_rule_setter w (.str s) =
            .ok (DrawSetClipRule w (FILL_RULE_TYPES.indexOf s),
                 [.drawSetClipRule (FILL_RULE_TYPES.indexOf s)]))) ∧
      ((pyIn (.str s) CLIP_PATH_UNITS = false →
          clip_units_setter w (.str s) =
            .error (.valueError "expected a string from CLIP_PATH_UNITS")) ∧
        (pyIn (.str s) CLIP_PATH_UNITS = true →
          clip_units_setter w (.str s) =
            .ok (DrawSetClipUnits w (CLIP_PATH_UNITS.indexOf s),
                 [.drawSetClipUnits (CLIP_PATH_UNITS.indexOf s)]))) ∧
      ((pyIn (.str s) FILL_RULE_TYPES = false →
          fill_rule_setter w (.str s) =
            .error (.valueError "expected a string from FILE_RULE_TYPES")) ∧
        (pyIn (.str s) FILL_RULE_TYPES = true →
          fill_rule_setter w (.str s) =
            .ok (DrawSetFillRule w (FILL_RULE_TYPES.indexOf s),
                 [.drawSetFillRule (FILL_RULE_TYPES.indexOf s)]))) ∧
      ((pyIn (.str s) LINE_CAP_TYPES = false →
          stroke_line_cap_setter w (.str s) =
            .error (.valueError "expected a string from LINE_CAP_TYPES")) ∧
        (pyIn (.str s) LINE_CAP_TYPES = true →
          stroke_line_cap_setter w (.str s) =
            .ok (DrawSetStrokeLineCap w (LINE_CAP_TYPES.indexOf s),
                 [.drawSetStrokeLineCap (LINE_CAP_TYPES.indexOf s)]))) ∧
      ((pyIn (.str s) LINE_JOIN_TYPES = false →
          stroke_line_join_setter w (.str s) =
            .error (.valueError "expected a string from LINE_JOIN_TYPES")) ∧
        (pyIn (.str s) LINE_JOIN_TYPES = true →
          stroke_line_join_setter w (.str s) =
            .ok (DrawSetStrokeLineJoin w (LINE_JOIN_TYPES.indexOf s),
                 [.drawSetStrokeLineJoin (LINE_JOIN_TYPES.indexOf s)]))) ∧
      ((pyIn (.str s) TEXT_ALIGN_TYPES = false →
          text_alignment_setter w (.str s) =
            .error (.valueError "expected a string from TEXT_ALIGN_TYPES")) ∧
        (pyIn (.str s) TEXT_ALIGN_TYPES = true →
          text_alignment_setter w (.str s) =
            .ok (DrawSetTextAlignment w (TEXT_ALIGN_TYPES.indexOf s),
                 [.drawSetTextAlignment (TEXT_ALIGN_TYPES.indexOf s)]))) ∧
      ((pyIn (.str s) TEXT_DECORATION_TYPES = false →
          text_decoration_setter w (.str s) =
            .error (.valueError "expected a string from TEXT_DECORATION_TYPES")) ∧
        (pyIn (.str s) TEXT_DECORATION_TYPES = true →
          text_decoration_setter w (.str s) =
            .ok (DrawSetTextDecoration w (TEXT_DECORATION_TYPES.indexOf s),
                 [.drawSetTextDecoration (TEXT_DECORATION_TYPES.indexOf s)]))) ∧
      ((pyIn (.str s) TEXT_DIRECTION_TYPES = false →
          text_direction_setter w (.str s) =
            .error (.valueError "expected a string from TEXT_DIRECTION_TYPES")) ∧
        (pyIn (.str s) TEXT_DIRECTION_TYPES = true →
          text_direction_setter w (.str s) =
            .ok (DrawSetTextDirection w (TEXT_DIRECTION_TYPES.indexOf s),
                 [.drawSetTextDirection (TEXT_DIRECTION_TYPES.indexOf s)]))) ∧
      ((pyIn (.str s) GRAVITY_TYPES = false →
          gravity_setter w (.str s) =
            .error (.valueError "expected a string from GRAVITY_TYPES")) ∧
        (pyIn (.str s) GRAVITY_TYPES = true →
          gravity_setter w (.str s) =
            .ok (DrawSetGravity w (GRAVITY_TYPES.indexOf s),
                 [.drawSetGravity (GRAVITY_TYPES.indexOf s)]))) := by
  intro w s
  refine ⟨⟨?_, ?_⟩, ⟨?_, ?_⟩, ⟨?_, ?_⟩, ⟨?_, ?_⟩, ⟨?_, ?_⟩, ⟨?_, ?_⟩,
    ⟨?_, ?_⟩, ⟨?_, ?_⟩, ⟨?_, ?_⟩⟩ <;> intro h <;>
    simp [clip_rule_setter, clip_units_setter, fill_rule_setter,
          stroke_line_cap_setter, stroke_line_join_setter,
          text_alignment_setter, text_decoration_setter,
          text_direction_setter, gravity_setter, h]

/-- Witness for `enum_setters_validate_and_encode`: the unknown token
`"diagonal"` is rejected by the `gravity` setter with no native call, and
the member token `"evenodd"` makes the `fill_rule` setter issue exactly
the one native call with index 1. -/
theorem enum_setters_validate_witness :
    gravity_setter initialWand (.str "diagonal") =
        .error (.valueError "expected a string from GRAVITY_TYPES") ∧
      fill_rule_setter initialWand (.str "evenodd") =
        .ok (DrawSetFillRule initialWand (FILL_RULE_TYPES.indexOf "evenodd"),
             [.drawSetFillRule (FILL_RULE_TYPES.indexOf "evenodd")]) :=
  ⟨((enum_setters_validate_and_encode initialWand "diagonal").2.2.2.2.2.2.2.2).1
      (by decide),
   ((enum_setters_validate_and_encode initialWand "evenodd").2.2.1).2
      (by decide)⟩

/-- Claim C1: for every enumerated-option property of `Drawing`
(`clip_rule`, `clip_units`, `fill_rule`, `stroke_line_cap`,
`stroke_line_join`, `text_alignment`, `text_decoration`,
`text_direction`, `gravity`) and every token of that property's
documented list, setting the property to the token and immediately
reading it back returns the token that was set.  The wand is any wand
with no pending native error, so the `raise_exception` consultations in
the getters (including the zero-index ones) surface nothing. -/
theorem enum_roundtrip :
    ∀ w : DrawingWand, w.lastError = none →
      (∀ t ∈ FILL_RULE_TYPES,
        setThenGet (clip_rule_setter w (.str t)) clip_rule_getter = .ok t) ∧
      (∀ t ∈ CLIP_PATH_UNITS,
        setThenGet (clip_units_setter w (.str t)) clip_units_getter = .ok t) ∧
      (∀ t ∈ FILL_RULE_TYPES,
        setThenGet (fill_rule_setter w (.str t)) fill_rule_getter = .ok t) ∧
      (∀ t ∈ LINE_CAP_TYPES,
        setThenGet (stroke_line_cap_setter w (.str t)) stroke_line_cap_getter
          = .ok t) ∧
      (∀ t ∈ LINE_JOIN_TYPES,
        setThenGet (stroke_line_join_setter w (.str t)) stroke_line_join_getter
          = .ok t) ∧
      (∀ t ∈ TEXT_ALIGN_TYPES,
        setThenGet (text_alignment_setter w (.str t)) text_alignment_getter
          = .ok t) ∧
      (∀ t ∈ TEXT_DECORATION_TYPES,
        setThenGet (text_decoration_setter w (.str t)) text_decoration_getter
          = .ok t) ∧
      (∀ t ∈ TEXT_DIRECTION_TYPES,
        setThenGet (text_direction_setter w (.str t)) text_direction_getter
          = .ok t) ∧
      (∀ t ∈ GRAVITY_TYPES,
        setThenGet (gravity_setter w (.str t)) gravity_getter = .ok t) := by
  intro w hw
  rcases w with ⟨cr, cu, fr, slc, slj, ta, tdec, tdir, gr, sw, fs, sc, tis, le⟩
  have hle : le = none := hw
  subst hle
  refine ⟨?_, ?_, ?_, ?_, ?_, ?_, ?_, ?_, ?_⟩ <;>
    · intro t ht
      fin_cases ht <;> rfl

/-- Witness for `enum_roundtrip`: setting `gravity` to the zero-indexed
token `"forget"` on a fresh wand reads back `"forget"`. -/
theorem enum_roundtrip_witness :
    setThenGet (gravity_setter initialWand (.str "forget")) gravity_getter =
      .ok "forget" :=
  (enum_roundtrip initialWand rfl).2.2.2.2.2.2.2.2 "forget" (by decide)

/-- Claim C7: cloning a `Drawing` allocates an independent native handle,
and mutating the clone's `stroke_color` leaves the original's
`stroke_color` unchanged, and vice versa. -/
theorem clone_stroke_color_independence :
    ∀ (heap : NativeHeap) (src : Handle) (c c2 : ColorVal),
      src < heap.nextHandle →
      ((Drawing.clone heap src).2 ≠ src) ∧
      ((stroke_color_setter (Drawing.clone heap src).1
          (Drawing.clone heap src).2 (.color c)).map
            (fun h2 => DrawGetStrokeColorH h2 src) =
        .ok (DrawGetStrokeColorH heap src)) ∧
      ((stroke_color_setter (Drawing.clone heap src).1 src (.color c2)).map
            (fun h2 => DrawGetStrokeColorH h2 (Drawing.clone heap src).2) =
        .ok (DrawGetStrokeColorH (Drawing.clone heap src).1
          (Drawing.clone heap src).2)) := by
  intro heap src c c2 hlt
  have hne : src ≠ heap.nextHandle := Nat.ne_of_lt hlt
  have hne2 : heap.nextHandle ≠ src := Ne.symm hne
  refine ⟨by simpa [Drawing.clone, CloneDrawingWand] using hne2, ?_, ?_⟩
  · simp [Drawing.clone, CloneDrawingWand, stroke_color_setter,
          DrawSetStrokeColorH, DrawGetStrokeColorH, Except.map, hne]
  · simp [Drawing.clone, CloneDrawingWand, stroke_color_setter,
          DrawSetStrokeColorH, DrawGetStrokeColorH, Except.map, hne2]

/-- Witness for `clone_stroke_color_independence`: cloning handle 0 of
the one-wand heap yields handle 1, and recoloring the clone leaves the
original's stroke color readable and unchanged. -/
theorem clone_stroke_color_independence_witness :
    ((Drawing.clone heap0 0).2 ≠ 0) ∧
      ((stroke_color_setter (Drawing.clone heap0 0).1 (Drawing.clone heap0 0).2
          (.color 7)).map (fun h2 => DrawGetStrokeColorH h2 0) =
        .ok (DrawGetStrokeColorH heap0 0)) :=
  ⟨(clone_stroke_color_independence heap0 0 7 9 (by decide)).1,
   (clone_stroke_color_independence heap0 0 7 9 (by decide)).2.1⟩
